import Mathlib

set_option maxRecDepth 40000

/-
  Shallow embedding of the eskiz DesignSpec generation-and-repair pipeline:
  the recursive DesignSpec data model, the visual-usage classifier, the
  repair passes, the retry client, the zod schema validator, and the rule
  loader, together with theorems settling the frozen claims about them.
-/

namespace Eskiz

/-- JavaScript-style truthiness of an optional string field: absent or the
empty string is falsy, every other string truthy. -/
def truthyStr : Option String → Bool
  | none => false
  | some s => !s.isEmpty

/-- JavaScript-style truthiness of an optional numeric field: absent or zero
is falsy, every other number truthy. -/
def truthyNat : Option Nat → Bool
  | none => false
  | some n => n != 0

/-- Does the character list start with the given needle list. -/
def charsStartWith : List Char → List Char → Bool
  | [], _ => true
  | _ :: _, [] => false
  | c :: cs, d :: ds => c == d && charsStartWith cs ds

/-- Does the haystack character list contain the needle as a contiguous
sublist at some position. -/
def charsContain : List Char → List Char → Bool
  | [], needle => needle.isEmpty
  | hay@(_ :: rest), needle => charsStartWith needle hay || charsContain rest needle

/-- JavaScript String.includes: substring test at any position. -/
def strIncludes (hay needle : String) : Bool :=
  charsContain hay.data needle.data

/-- JavaScript String.toLowerCase restricted to the character-wise lowering
that the repository's ASCII rule keywords need. -/
def strLower (s : String) : String :=
  ⟨s.data.map Char.toLower⟩

/-- All characters of the string are whitespace, so that trimming yields the
empty string; mirrors the content.trim() === "" test of the source. -/
def isAllWhitespace (s : String) : Bool :=
  s.data.all Char.isWhitespace

/-- Layout enum of packages/spec/src/types.ts. -/
inductive Layout where
  | vertical
  | horizontal
deriving DecidableEq, Repr

/-- Border record of packages/spec/src/types.ts. -/
structure Border where
  color : String
  width : Nat
deriving DecidableEq, Repr

/-- The Node tagged union of packages/spec/src/types.ts: text, button and
container variants, with the optional fields of each variant. -/
inductive Node where
  | text (content : String) (fontSize : Option Nat) (color : Option String)
  | button (label : String) (background : Option String) (textColor : Option String)
      (borderRadius : Option Nat)
  | container (layout : Layout) (gap : Nat) (padding : Nat) (background : Option String)
      (borderRadius : Option Nat) (border : Option Border) (children : List Node)
deriving Repr

/-- Frame record of packages/spec/src/types.ts. -/
structure Frame where
  name : String
  width : Nat
  height : Option Nat
  layout : Layout
  gap : Nat
  padding : Nat
  background : Option String
  borderRadius : Option Nat
  border : Option Border
deriving Repr

/-- DesignSpec record of packages/spec/src/types.ts. -/
structure DesignSpec where
  page : String
  frame : Frame
  nodes : List Node
deriving Repr

/-- Target layout enum of the generation context. -/
inductive TargetLayout where
  | mobile
  | tablet
  | desktop
deriving DecidableEq, Repr

/-- UI strictness enum of the generation context. -/
inductive UIStrictness where
  | strict
  | balanced
deriving DecidableEq, Repr

/-- UX pattern flags of the generation context. -/
structure UXPatterns where
  groupElements : Bool
  formContainer : Bool
  helperText : Bool
deriving DecidableEq, Repr

/-- GenerationContext record of packages/spec/src/types.ts; the two trailing
optional booleans mirror the optional visualBaseline and strictLayout keys. -/
structure GenerationContext where
  targetLayout : TargetLayout
  uiStrictness : UIStrictness
  uxPatterns : UXPatterns
  visualBaseline : Option Bool
  strictLayout : Option Bool
deriving Repr

/-- VisualUsageWarning record of validateVisualUsage.ts. -/
structure VisualUsageWarning where
  path : String
  properties : List String
  reason : String
deriving DecidableEq, Repr

/-- Is this node a text node whose content, lowercased, contains one of the
words enter, placeholder or hint; the child test of isInputLikeContainer. -/
def isPlaceholderLikeChild : Node → Bool
  | .text content _ _ =>
      strIncludes (strLower content) "enter" || strIncludes (strLower content) "placeholder" ||
        strIncludes (strLower content) "hint"
  | _ => false

/-- isInputLikeContainer of validateVisualUsage.ts: the container has a
border and some direct child is placeholder-like text; false on
non-containers. -/
def isInputLikeContainer : Node → Bool
  | .container _ _ _ _ _ border children =>
      if border.isNone then false
      else children.any isPlaceholderLikeChild
  | _ => false

/-- isCardLikeContainer of validateVisualUsage.ts: truthy background and
borderRadius, and either padding at least 16 or positive padding with at
least two children; false on non-containers. -/
def isCardLikeContainer : Node → Bool
  | .container _ _ padding background borderRadius _ children =>
      if !truthyStr background || !truthyNat borderRadius then false
      else if padding ≥ 16 then true
      else if padding > 0 && children.length ≥ 2 then true
      else false
  | _ => false

/-- hasVisualStyling of validateVisualUsage.ts: truthiness of background,
borderRadius or border. -/
def hasVisualStyling : Node → Bool
  | .container _ _ _ background borderRadius border _ =>
      truthyStr background || truthyNat borderRadius || border.isSome
  | _ => false

/-- A path segment as passed to buildPath: a string key or a numeric index. -/
inductive Seg where
  | str (s : String)
  | num (n : Nat)
deriving DecidableEq, Repr

/-- The loop body of buildPath of validateVisualUsage.ts, carrying the
previous segment: numeric segments render with the preceding nodes or
children key, other string keys render alone. -/
def buildPathParts : Option Seg → List Seg → List String
  | _, [] => []
  | prev, Seg.num n :: rest =>
      (match prev with
        | some (Seg.str p) =>
            if p == "nodes" || p == "children" then
              [p ++ "[" ++ toString n ++ "]"]
            else ["[" ++ toString n ++ "]"]
        | _ => ["[" ++ toString n ++ "]"]) ++ buildPathParts (some (Seg.num n)) rest
  | _, Seg.str s :: rest =>
      (if s != "nodes" && s != "children" then [s] else []) ++
        buildPathParts (some (Seg.str s)) rest

/-- buildPath of validateVisualUsage.ts. -/
def buildPath (segments : List Seg) : String :=
  String.intercalate "." (buildPathParts none segments)

/-- The fixed reason string pushed with every visual-usage warning. -/
def visualWarningReason : String :=
  "Container appears to be layout-only (grouping/alignment) but has visual styling. " ++
    "Layout containers should not have background, borderRadius, or border properties. " ++
    "Only surface containers (cards, inputs) should have visual styling."

/-- The offending-property descriptions pushed for a flagged container:
a truthy background, a present borderRadius, a truthy border. -/
def containerProperties (background : Option String) (borderRadius : Option Nat)
    (border : Option Border) : List String :=
  (if truthyStr background then ["background=\"" ++ background.getD "" ++ "\""] else []) ++
    (match borderRadius with
      | some n => ["borderRadius=" ++ toString n]
      | none => []) ++
    (if border.isSome then ["border"] else [])

mutual

/-- traverseNode of validateVisualUsage.ts: non-containers yield nothing;
unstyled containers only recurse into children; styled containers that are
neither input-like nor card-like push one warning, then recurse. -/
def traverseNode : Node → List Seg → List VisualUsageWarning
  | .text _ _ _, _ => []
  | .button _ _ _ _, _ => []
  | .container layout gap padding background borderRadius border children, segs =>
      let c := Node.container layout gap padding background borderRadius border children
      if !hasVisualStyling c then
        traverseChildren children segs 0
      else
        let isInput := isInputLikeContainer c
        let isCard := isCardLikeContainer c
        (if !isInput && !isCard then
          [{ path := buildPath segs
             properties := containerProperties background borderRadius border
             reason := visualWarningReason }]
        else []) ++ traverseChildren children segs 0

/-- Traversal of a children array, appending the children key and index to
the path segments, mirroring the forEach of validateVisualUsage.ts. -/
def traverseChildren : List Node → List Seg → Nat → List VisualUsageWarning
  | [], _, _ => []
  | c :: cs, segs, i =>
      traverseNode c (segs ++ [Seg.str "children", Seg.num i]) ++ traverseChildren cs segs (i + 1)

end

/-- The top-level forEach of validateVisualUsage.ts over the root nodes. -/
def traverseTopNodes : List Node → Nat → List VisualUsageWarning
  | [], _ => []
  | n :: ns, i => traverseNode n [Seg.str "nodes", Seg.num i] ++ traverseTopNodes ns (i + 1)

/-- validateVisualUsage of validateVisualUsage.ts. -/
def validateVisualUsage (spec : DesignSpec) : List VisualUsageWarning :=
  traverseTopNodes spec.nodes 0

mutual

/-- Claim-side listing of every container of a node subtree together with
its path segments, in the traversal order of the classifier. -/
def collectContainers : Node → List Seg → List (List Seg × Node)
  | .text _ _ _, _ => []
  | .button _ _ _ _, _ => []
  | .container layout gap padding background borderRadius border children, segs =>
      (segs, Node.container layout gap padding background borderRadius border children) ::
        collectChildContainers children segs 0

/-- Claim-side listing of the containers of a children array. -/
def collectChildContainers : List Node → List Seg → Nat → List (List Seg × Node)
  | [], _, _ => []
  | c :: cs, segs, i =>
      collectContainers c (segs ++ [Seg.str "children", Seg.num i]) ++
        collectChildContainers cs segs (i + 1)

end

/-- Claim-side listing of the containers of the root node sequence. -/
def collectTopContainers : List Node → Nat → List (List Seg × Node)
  | [], _ => []
  | n :: ns, i => collectContainers n [Seg.str "nodes", Seg.num i] ++ collectTopContainers ns (i + 1)

/-- Claim-side: the container carries visual styling, meaning background,
borderRadius or border is present in the truthy sense fixed by the code. -/
def claimStyled : Node → Bool
  | .container _ _ _ background borderRadius border _ =>
      truthyStr background || truthyNat borderRadius || border.isSome
  | _ => false

/-- Claim-side input-like test: the container has a border and some direct
child text node case-insensitively containing enter, placeholder or hint. -/
def claimInputLike : Node → Bool
  | .container _ _ _ _ _ border children =>
      border.isSome &&
        children.any fun child =>
          match child with
          | .text content _ _ =>
              strIncludes (strLower content) "enter" ||
                strIncludes (strLower content) "placeholder" ||
                strIncludes (strLower content) "hint"
          | _ => false
  | _ => false

/-- Claim-side card-like test: background and borderRadius both set, and
either padding at least 16 or positive padding with at least two children. -/
def claimCardLike : Node → Bool
  | .container _ _ padding background borderRadius _ children =>
      truthyStr background && truthyNat borderRadius &&
        (padding ≥ 16 || (padding > 0 && children.length ≥ 2))
  | _ => false

/-- Claim-side flagging condition: visually styled and neither input-like
nor card-like. -/
def claimFlagged (n : Node) : Bool :=
  claimStyled n && !claimInputLike n && !claimCardLike n

/-- The warning the claim predicts for one listed container, when its
flagging condition holds. -/
def claimWarningOf : List Seg × Node → Option VisualUsageWarning
  | (segs, .container layout gap padding background borderRadius border children) =>
      if claimFlagged (.container layout gap padding background borderRadius border children) then
        some { path := buildPath segs
               properties := containerProperties background borderRadius border
               reason := visualWarningReason }
      else none
  | _ => none

/-- Claim-side warning list: exactly the flagged containers, in traversal
order. -/
def claimWarnings (spec : DesignSpec) : List VisualUsageWarning :=
  (collectTopContainers spec.nodes 0).filterMap claimWarningOf

/-- The record of fixed visual default values of generator.ts. -/
structure VisualDefaultValues where
  containerBackground : String
  containerBorderRadius : Nat
  inputBorder : Border
  buttonBackground : String
  buttonTextColor : String
  buttonBorderRadius : Nat
  primaryTextColor : String
  placeholderTextColor : String

/-- VISUAL_DEFAULTS of generator.ts. -/
def VISUAL_DEFAULTS : VisualDefaultValues :=
  { containerBackground := "#FFFFFF"
    containerBorderRadius := 12
    inputBorder := { color := "#D1D5DB", width := 1 }
    buttonBackground := "#2563EB"
    buttonTextColor := "#FFFFFF"
    buttonBorderRadius := 8
    primaryTextColor := "#111111"
    placeholderTextColor := "#6B7280" }

/-- isInputContainer of generator.ts: a container with a border, or with a
direct child text node containing enter or placeholder (lowercased). -/
def isInputContainer : Node → Bool
  | .container _ _ _ _ _ border children =>
      if border.isSome then true
      else
        children.any fun child =>
          match child with
          | .text content _ _ =>
              strIncludes (strLower content) "enter" ||
                strIncludes (strLower content) "placeholder"
          | _ => false
  | _ => false

/-- isPlaceholderText of generator.ts: a text node containing enter,
placeholder, hint or helper (lowercased). -/
def isPlaceholderText : Node → Bool
  | .text content _ _ =>
      strIncludes (strLower content) "enter" ||
        strIncludes (strLower content) "placeholder" ||
        strIncludes (strLower content) "hint" ||
        strIncludes (strLower content) "helper"
  | _ => false

/-- The per-target default dimensions of applyVisualDefaults in
generator.ts, as a width and height pair. -/
def defaultDimensions : TargetLayout → Nat × Nat
  | .mobile => (400, 800)
  | .tablet => (768, 900)
  | .desktop => (1200, 900)

mutual

/-- applyNodeDefaults of generator.ts: fill unset optional visual
attributes with the fixed defaults; input-like containers get no default
borderRadius but a default border. -/
def applyNodeDefaults : Node → Node
  | .text content fontSize color =>
      .text content fontSize
        (some (color.getD
          (if isPlaceholderText (.text content fontSize color) then
            VISUAL_DEFAULTS.placeholderTextColor
          else VISUAL_DEFAULTS.primaryTextColor)))
  | .button label background textColor borderRadius =>
      .button label (some (background.getD VISUAL_DEFAULTS.buttonBackground))
        (some (textColor.getD VISUAL_DEFAULTS.buttonTextColor))
        (some (borderRadius.getD VISUAL_DEFAULTS.buttonBorderRadius))
  | .container layout gap padding background borderRadius border children =>
      let isInput := isInputContainer (.container layout gap padding background borderRadius border children)
      .container layout gap padding
        (some (background.getD VISUAL_DEFAULTS.containerBackground))
        (match borderRadius with
          | some n => some n
          | none => if isInput then none else some VISUAL_DEFAULTS.containerBorderRadius)
        (match border with
          | some b => some b
          | none => if isInput then some VISUAL_DEFAULTS.inputBorder else none)
        (applyNodeDefaultsList children)

/-- The children map of applyNodeDefaults. -/
def applyNodeDefaultsList : List Node → List Node
  | [] => []
  | c :: cs => applyNodeDefaults c :: applyNodeDefaultsList cs

end

/-- applyVisualDefaults of generator.ts: default the frame height by target
layout and the frame background and borderRadius to the fixed neutral
values, then rewrite every node with applyNodeDefaults. -/
def applyVisualDefaults (spec : DesignSpec) (targetLayout : TargetLayout) : DesignSpec :=
  let dimensions := defaultDimensions targetLayout
  { spec with
    frame := { spec.frame with
      height := some (spec.frame.height.getD dimensions.2)
      background := some (spec.frame.background.getD VISUAL_DEFAULTS.containerBackground)
      borderRadius := some (spec.frame.borderRadius.getD VISUAL_DEFAULTS.containerBorderRadius) }
    nodes := applyNodeDefaultsList spec.nodes }

/-- The fixed rotating placeholder list of ensureNonEmptyTextContent. -/
def placeholderTexts : List String :=
  ["Enter your email", "Enter password", "Enter value", "Enter text", "Placeholder"]

/-- The blank-content test of ensureNonEmptyTextContent: falsy content or
content trimming to the empty string. -/
def isBlankContent (content : String) : Bool :=
  content.isEmpty || isAllWhitespace content

mutual

/-- fixNode of ensureNonEmptyTextContent in generator.ts, with the shared
mutable placeholder counter threaded explicitly: blank text nodes receive
the next rotating placeholder and bump the counter. -/
def fixNode : Node → Nat → Node × Nat
  | .text content fontSize color, idx =>
      if isBlankContent content then
        (.text (placeholderTexts.getD (idx % placeholderTexts.length) "") fontSize color, idx + 1)
      else (.text content fontSize color, idx)
  | .container layout gap padding background borderRadius border children, idx =>
      let r := fixNodeList children idx
      (.container layout gap padding background borderRadius border r.1, r.2)
  | n, idx => (n, idx)

/-- The children map of fixNode, threading the counter left to right. -/
def fixNodeList : List Node → Nat → List Node × Nat
  | [], idx => ([], idx)
  | c :: cs, idx =>
      let r := fixNode c idx
      let rs := fixNodeList cs r.2
      (r.1 :: rs.1, rs.2)

end

/-- ensureNonEmptyTextContent of generator.ts, starting the shared counter
at zero on the root node sequence. -/
def ensureNonEmptyTextContent (spec : DesignSpec) : DesignSpec :=
  { spec with nodes := (fixNodeList spec.nodes 0).1 }

mutual

/-- Every text content in the node subtree is non-blank. -/
def nodeTextsNonBlank : Node → Bool
  | .text content _ _ => !isBlankContent content
  | .button _ _ _ _ => true
  | .container _ _ _ _ _ _ children => nodeListTextsNonBlank children

/-- Every text content in the node list is non-blank. -/
def nodeListTextsNonBlank : List Node → Bool
  | [] => true
  | c :: cs => nodeTextsNonBlank c && nodeListTextsNonBlank cs

end

mutual

/-- The preorder listing of a node and all its descendants. -/
def nodePreorder : Node → List Node
  | .text content fontSize color => [.text content fontSize color]
  | .button label background textColor borderRadius =>
      [.button label background textColor borderRadius]
  | .container layout gap padding background borderRadius border children =>
      Node.container layout gap padding background borderRadius border children ::
        nodeListPreorder children

/-- The preorder listing of every node of a node list. -/
def nodeListPreorder : List Node → List Node
  | [] => []
  | c :: cs => nodePreorder c ++ nodeListPreorder cs

end

/-- All nodes of a DesignSpec, in preorder. -/
def specAllNodes (spec : DesignSpec) : List Node :=
  nodeListPreorder spec.nodes

/-- The already-set optional attributes of the first node keep their values
in the second: color of text nodes, background, textColor and borderRadius
of buttons, background, borderRadius and border of containers. The nodes
must share a constructor. -/
def optPreserved : Node → Node → Prop
  | .text _ _ color, .text _ _ color2 =>
      color.isSome → color2 = color
  | .button _ background textColor borderRadius, .button _ background2 textColor2 borderRadius2 =>
      (background.isSome → background2 = background) ∧
        (textColor.isSome → textColor2 = textColor) ∧
        (borderRadius.isSome → borderRadius2 = borderRadius)
  | .container _ _ _ background borderRadius border _,
      .container _ _ _ background2 borderRadius2 border2 _ =>
      (background.isSome → background2 = background) ∧
        (borderRadius.isSome → borderRadius2 = borderRadius) ∧
        (border.isSome → border2 = border)
  | _, _ => False

/-- DEFAULT_GENERATION_CONTEXT of generator.ts. -/
def DEFAULT_GENERATION_CONTEXT : GenerationContext :=
  { targetLayout := .mobile
    uiStrictness := .strict
    uxPatterns := { groupElements := true, formContainer := true, helperText := false }
    visualBaseline := some true
    strictLayout := some false }

/-- The fixed mock DesignSpec of the dry-run branch of generateDesignSpec. -/
def mockSpec : DesignSpec :=
  { page := "Mock Page"
    frame :=
      { name := "Mock Frame"
        width := 400
        height := some 800
        layout := .vertical
        gap := 16
        padding := 24
        background := some "#FFFFFF"
        borderRadius := some 12
        border := none }
    nodes :=
      [ .text "Mock content" (some 16) (some "#111111"),
        .container .vertical 12 16 (some "#FFFFFF") (some 12) none
          [.text "Nested text" (some 14) (some "#111111")],
        .button "Mock Button" (some "#2563EB") (some "#FFFFFF") (some 8) ] }

/-- The dry-run branch of generateDesignSpec in generator.ts: the request's
generation context defaults to DEFAULT_GENERATION_CONTEXT, and the fixed
mock spec is returned through applyVisualDefaults for the context's target
layout; the prompt is only logged. -/
def generateDesignSpecDryRun (prompt : String)
    (generationContext : Option GenerationContext) : DesignSpec :=
  let _ := prompt
  let gc := generationContext.getD DEFAULT_GENERATION_CONTEXT
  applyVisualDefaults mockSpec gc.targetLayout

/-- The non-dry-run repair pipeline applied to a schema-valid spec in
generateDesignSpec: empty-text repair, then visual defaults; the
visual-usage classification that follows only logs warnings and leaves the
spec unchanged. -/
def repairPipeline (spec : DesignSpec) (targetLayout : TargetLayout) : DesignSpec :=
  applyVisualDefaults (ensureNonEmptyTextContent spec) targetLayout

/-- The error object model of the retry client of specAnalysis.ts: whether
the thrown value is an Error instance, its message, and its optional
numeric HTTP status field. Thrown values are modeled as objects. -/
structure ErrObj where
  isErrorInstance : Bool
  message : String
  status : Option Nat
deriving DecidableEq, Repr

/-- The retryable HTTP status list of isRetryableError. -/
def retryableStatuses : List Nat := [429, 500, 502, 503, 504]

/-- isRetryableError of specAnalysis.ts: a numeric status field decides by
membership in the retryable list; otherwise an Error instance is retryable
when its lowercased message contains timeout, econnreset or etimedout. -/
def isRetryableError (e : ErrObj) : Bool :=
  match e.status with
  | some s => retryableStatuses.contains s
  | none =>
      e.isErrorInstance &&
        (strIncludes (strLower e.message) "timeout" ||
          strIncludes (strLower e.message) "econnreset" ||
          strIncludes (strLower e.message) "etimedout")

/-- The in-loop timeout test of makeOpenAIRequestWithRetry: an Error whose
message contains the word timeout, or equals the fixed race message. -/
def isTimeoutError (e : ErrObj) : Bool :=
  e.isErrorInstance && (strIncludes e.message "timeout" || e.message == "Request timeout")

/-- The rejection produced by the timeout race of the retry client. -/
def requestTimeoutError : ErrObj :=
  { isErrorInstance := true, message := "Request timeout", status := none }

/-- The completion returned by a successful raced call, with the optional
request id exposed through the response headers and the optional embedded
id field. -/
structure Completion where
  headerRequestId : Option String
  id : Option String
deriving DecidableEq, Repr

/-- The request-id extraction of the retry client: the openai-request-id
header when present, else the completion's id field. -/
def extractRequestId (c : Completion) : Option String :=
  match c.headerRequestId with
  | some r => some r
  | none => c.id

/-- RequestOutcome of specAnalysis.ts. -/
inductive RequestOutcome where
  | success
  | timeout
  | error
deriving DecidableEq, Repr

/-- RetryResult of specAnalysis.ts; the null completion of the failure
paths is modeled as none. -/
structure RetryResult where
  completion : Option Completion
  retryCount : Nat
  outcome : RequestOutcome
  openaiRequestId : Option String
deriving DecidableEq, Repr

/-- One raced attempt of the fake backend: a completion, or a rejection
carrying an error object; a raced timeout is the rejection
requestTimeoutError. -/
inductive AttemptResult where
  | success (c : Completion)
  | failure (e : ErrObj)
deriving DecidableEq, Repr

/-- The classification after the loop of makeOpenAIRequestWithRetry: the
last observed error reports timeout only when it is an Error whose message
contains the word timeout, else error. -/
def exhaustedResult (lastError : Option ErrObj) (retryCount : Nat) : RetryResult :=
  { completion := none
    retryCount := retryCount
    outcome :=
      match lastError with
      | some e =>
          if e.isErrorInstance && strIncludes e.message "timeout" then .timeout else .error
      | none => .error
    openaiRequestId := none }

/-- The attempt loop of makeOpenAIRequestWithRetry, with the backend giving
each raced attempt's result by attempt index, fuel bounding the remaining
iterations, and the performed backoff sleeps accumulated in a trace list.
A timeout rejection returns at once; a non-retryable rejection or the last
attempt breaks to the final classification; otherwise the loop sleeps the
exponential backoff delay and retries. -/
def retryGo (maxRetries baseRetryMs : Nat) (backend : Nat → AttemptResult) :
    Nat → Nat → Nat → List Nat → Option ErrObj → RetryResult × List Nat
  | 0, _, retryCount, sleeps, lastError => (exhaustedResult lastError retryCount, sleeps)
  | fuel + 1, attempt, retryCount, sleeps, _ =>
      match backend attempt with
      | .success c =>
          ({ completion := some c
             retryCount := retryCount
             outcome := .success
             openaiRequestId := extractRequestId c }, sleeps)
      | .failure e =>
          if isTimeoutError e then
            ({ completion := none
               retryCount := retryCount
               outcome := .timeout
               openaiRequestId := none }, sleeps)
          else if !isRetryableError e || attempt == maxRetries then
            (exhaustedResult (some e) retryCount, sleeps)
          else
            retryGo maxRetries baseRetryMs backend fuel (attempt + 1) (retryCount + 1)
              (sleeps ++ [baseRetryMs * 2 ^ attempt]) (some e)

/-- makeOpenAIRequestWithRetry of specAnalysis.ts over a fake backend: the
loop runs attempts 0 up to maxRetries, so fuel maxRetries plus one never
runs out before the in-loop break. The second component is the trace of
backoff sleeps that were awaited. -/
def makeOpenAIRequestWithRetry (maxRetries baseRetryMs : Nat)
    (backend : Nat → AttemptResult) : RetryResult × List Nat :=
  retryGo maxRetries baseRetryMs backend (maxRetries + 1) 0 0 [] none

/-- Parsed JSON values as consumed by the zod schema of
packages/spec/src/schema.ts; numeric literals are modeled as integers,
since every numeric field of the schema carries an integer constraint. -/
inductive Json where
  | jnull
  | jbool (b : Bool)
  | jnum (n : Int)
  | jstr (s : String)
  | jarr (elems : List Json)
  | jobj (fields : List (String × Json))
deriving Repr

/-- First-match field lookup in a JSON object. -/
def findField : List (String × Json) → String → Option Json
  | [], _ => none
  | (k, v) :: rest, key => if k == key then some v else findField rest key

/-- A field value found by lookup is structurally smaller than the field
list holding it. -/
theorem findField_sizeOf {fields : List (String × Json)} {key : String} {v : Json}
    (h : findField fields key = some v) : sizeOf v < sizeOf fields := by
  induction fields with
  | nil => simp [findField] at h
  | cons kv rest ih =>
      obtain ⟨k, w⟩ := kv
      simp only [findField] at h
      split at h
      · cases h
        simp
        omega
      · have := ih h
        simp
        omega

/-- The z.string() validator. -/
def parseString : Json → Option String
  | .jstr s => some s
  | _ => none

/-- The z.string().min(1) validator. -/
def parseNonEmptyString : Json → Option String
  | .jstr s => if s.length ≥ 1 then some s else none
  | _ => none

/-- The z.number().int().nonnegative() validator; model numbers are already
integral. -/
def parseNonnegInt : Json → Option Nat
  | .jnum n => if 0 ≤ n then some n.toNat else none
  | _ => none

/-- The z.number().int().positive() validator. -/
def parsePositiveInt : Json → Option Nat
  | .jnum n => if 0 < n then some n.toNat else none
  | _ => none

/-- The layout enum validator. -/
def parseLayout : Json → Option Layout
  | .jstr "vertical" => some .vertical
  | .jstr "horizontal" => some .horizontal
  | _ => none

/-- An optional object field in zod: an absent key parses to none, a
present key must satisfy the inner validator. Unknown keys are stripped,
never validated. -/
def parseOptField (fields : List (String × Json)) (key : String)
    (p : Json → Option α) : Option (Option α) :=
  match findField fields key with
  | none => some none
  | some j => (p j).map some

/-- A required object field in zod: the key must be present and satisfy
the inner validator. -/
def parseReqField (fields : List (String × Json)) (key : String)
    (p : Json → Option α) : Option α :=
  match findField fields key with
  | none => none
  | some j => p j

/-- The borderSchema validator of schema.ts. -/
def parseBorder : Json → Option Border
  | .jobj fields => do
      let color ← parseReqField fields "color" parseString
      let width ← parseReqField fields "width" parseNonnegInt
      some { color := color, width := width }
  | _ => none

/-- The frameSchema validator of schema.ts. -/
def parseFrame : Json → Option Frame
  | .jobj fields => do
      let name ← parseReqField fields "name" parseNonEmptyString
      let width ← parseReqField fields "width" parsePositiveInt
      let height ← parseOptField fields "height" parsePositiveInt
      let layout ← parseReqField fields "layout" parseLayout
      let gap ← parseReqField fields "gap" parseNonnegInt
      let padding ← parseReqField fields "padding" parseNonnegInt
      let background ← parseOptField fields "background" parseString
      let borderRadius ← parseOptField fields "borderRadius" parseNonnegInt
      let border ← parseOptField fields "border" parseBorder
      some { name := name, width := width, height := height, layout := layout, gap := gap,
             padding := padding, background := background, borderRadius := borderRadius,
             border := border }
  | _ => none

mutual

/-- The recursive nodeSchema validator of schema.ts: discriminated-union
dispatch on the type tag, with unknown or missing tags failing, and the
container arm requiring a children array of validated nodes of length at
least one. -/
def parseNode : Json → Option Node
  | .jobj fields =>
      match findField fields "type" with
      | some (.jstr "text") => do
          let content ← parseReqField fields "content" parseString
          let fontSize ← parseOptField fields "fontSize" parsePositiveInt
          let color ← parseOptField fields "color" parseString
          some (.text content fontSize color)
      | some (.jstr "button") => do
          let label ← parseReqField fields "label" parseNonEmptyString
          let background ← parseOptField fields "background" parseString
          let textColor ← parseOptField fields "textColor" parseString
          let borderRadius ← parseOptField fields "borderRadius" parseNonnegInt
          some (.button label background textColor borderRadius)
      | some (.jstr "container") =>
          match hch : findField fields "children" with
          | some (.jarr elems) => do
              let layout ← parseReqField fields "layout" parseLayout
              let gap ← parseReqField fields "gap" parseNonnegInt
              let padding ← parseReqField fields "padding" parseNonnegInt
              let children ← parseNodeList elems
              let background ← parseOptField fields "background" parseString
              let borderRadius ← parseOptField fields "borderRadius" parseNonnegInt
              let border ← parseOptField fields "border" parseBorder
              if children.length ≥ 1 then
                some (.container layout gap padding background borderRadius border children)
              else none
          | _ => none
      | _ => none
  | _ => none
termination_by j => sizeOf j
decreasing_by
  simp_wf
  have h1 := findField_sizeOf hch
  simp at h1
  omega

/-- The element-wise validation of a children array. -/
def parseNodeList : List Json → Option (List Node)
  | [] => some []
  | x :: xs => do
      let n ← parseNode x
      let ns ← parseNodeList xs
      some (n :: ns)
termination_by l => sizeOf l
decreasing_by
  all_goals simp_wf <;> omega

end

/-- The designSpecSchema validator of schema.ts: page a non-empty string,
a valid frame, and a non-empty array of valid nodes. -/
def parseDesignSpec : Json → Option DesignSpec
  | .jobj fields => do
      let page ← parseReqField fields "page" parseNonEmptyString
      let frame ← parseReqField fields "frame" parseFrame
      match findField fields "nodes" with
      | some (.jarr elems) => do
          let nodes ← parseNodeList elems
          if nodes.length ≥ 1 then some { page := page, frame := frame, nodes := nodes }
          else none
      | _ => none
  | _ => none

mutual

/-- Claim-side containment: the JSON value, read at a node position, is a
container-tagged object whose children array is empty, or a container
whose children array holds such a value at any depth. -/
def nodeHasEmptyContainer : Json → Bool
  | .jobj fields =>
      match findField fields "type" with
      | some (.jstr "container") =>
          match hch : findField fields "children" with
          | some (.jarr elems) => elems.isEmpty || nodeListHasEmptyContainer elems
          | _ => false
      | _ => false
  | _ => false
termination_by j => sizeOf j
decreasing_by
  simp_wf
  have h1 := findField_sizeOf hch
  simp at h1
  omega

/-- Claim-side containment over a children array. -/
def nodeListHasEmptyContainer : List Json → Bool
  | [] => false
  | x :: xs => nodeHasEmptyContainer x || nodeListHasEmptyContainer xs
termination_by l => sizeOf l
decreasing_by
  all_goals simp_wf <;> omega

end

/-- Claim-side containment at the top level: the value is an object whose
nodes field is an array holding, at any nesting depth of the node
structure, a container with an empty children array. -/
def specHasEmptyContainer : Json → Bool
  | .jobj fields =>
      match findField fields "nodes" with
      | some (.jarr elems) => nodeListHasEmptyContainer elems
      | _ => false
  | _ => false

/-- BaseRule of the prompt rule types. -/
structure BaseRule where
  name : String
  description : String
  rules : List String
deriving DecidableEq, Repr

/-- LayoutRule of the prompt rule types. -/
structure LayoutRule where
  name : String
  description : String
  rules : List String
  strictRules : Option (List String)
  balancedRules : Option (List String)
deriving DecidableEq, Repr

/-- DeviceRule of the prompt rule types. -/
structure DeviceRule where
  width : String
  height : String
  rules : List String
deriving DecidableEq, Repr

/-- DevicesRule of the prompt rule types. -/
structure DevicesRule where
  name : String
  description : String
  mobile : DeviceRule
  tablet : DeviceRule
  desktop : DeviceRule
deriving DecidableEq, Repr

/-- PatternRule of the prompt rule types: a base rule with an optional
detection keyword list. -/
structure PatternRule where
  name : String
  description : String
  rules : List String
  detectionKeywords : Option (List String)
deriving DecidableEq, Repr

/-- LoadedRules of the prompt rule types. -/
structure LoadedRules where
  base : BaseRule
  layout : LayoutRule
  visualBaseline : Option BaseRule
  device : DeviceRule
  patterns : List PatternRule
deriving DecidableEq, Repr

/-- The static rule documents of the spec-rules directory, as the loader
reads them: the required base, layout, devices and visual-baseline files,
and the optional auth-form pattern file, none when missing or unreadable. -/
structure RuleFiles where
  base : BaseRule
  layout : LayoutRule
  devices : DevicesRule
  visualBaselineFile : BaseRule
  authForm : Option PatternRule
deriving DecidableEq, Repr

/-- matchesPattern of loadRules.ts: a missing or empty detection keyword
list never matches; otherwise the lowercased prompt must contain some
lowercased keyword. -/
def matchesPattern (prompt : String) (pattern : PatternRule) : Bool :=
  match pattern.detectionKeywords with
  | none => false
  | some kws =>
      if kws.length == 0 then false
      else kws.any fun kw => strIncludes (strLower prompt) (strLower kw)

/-- loadRules of loadRules.ts over injected rule documents: base and layout
always load, the device is selected by target layout, the visual-baseline
document loads only when the flag is set, and the auth-form pattern is
included when its file loaded and its keywords match the prompt. -/
def loadRules (files : RuleFiles) (userPrompt : String) (targetLayout : TargetLayout)
    (uiStrictness : UIStrictness) (visualBaseline : Bool) : LoadedRules :=
  let _ := uiStrictness
  { base := files.base
    layout := files.layout
    visualBaseline := if visualBaseline then some files.visualBaselineFile else none
    device :=
      match targetLayout with
      | .mobile => files.devices.mobile
      | .tablet => files.devices.tablet
      | .desktop => files.devices.desktop
    patterns :=
      match files.authForm with
      | some p => if matchesPattern userPrompt p then [p] else []
      | none => [] }

/-- The concrete container of the claim scenario: only borderRadius 12 set,
padding 0, and two plain text children. -/
def c1Container : Node :=
  .container .vertical 0 0 none (some 12) none
    [.text "Email" none none, .text "Password" none none]

/-- A DesignSpec holding the claim scenario container as its only root
node. -/
def c1Example : DesignSpec :=
  { page := "Page"
    frame :=
      { name := "Frame", width := 400, height := none, layout := .vertical, gap := 0,
        padding := 0, background := none, borderRadius := none, border := none }
    nodes := [c1Container] }

/-- The warning the classifier emits for the claim scenario container. -/
def c1Warning : VisualUsageWarning :=
  { path := "nodes[0]", properties := ["borderRadius=12"], reason := visualWarningReason }

theorem isInputLikeContainer_eq_claim (n : Node) :
    isInputLikeContainer n = claimInputLike n := by
  cases n with
  | text _ _ _ => rfl
  | button _ _ _ _ => rfl
  | container l g p bg br bd ch =>
      have h : (fun child => match child with
          | Node.text content _ _ =>
              strIncludes (strLower content) "enter" ||
                strIncludes (strLower content) "placeholder" ||
                strIncludes (strLower content) "hint"
          | _ => false) = isPlaceholderLikeChild := by
        funext child
        cases child <;> rfl
      cases bd <;> simp [isInputLikeContainer, claimInputLike, h]

theorem isCardLikeContainer_eq_claim (n : Node) :
    isCardLikeContainer n = claimCardLike n := by
  cases n with
  | text _ _ _ => rfl
  | button _ _ _ _ => rfl
  | container l g p bg br bd ch =>
      simp only [isCardLikeContainer, claimCardLike]
      by_cases hbg : truthyStr bg <;> by_cases hbr : truthyNat br <;> simp [hbg, hbr]

theorem hasVisualStyling_eq_claim (n : Node) : hasVisualStyling n = claimStyled n := by
  cases n <;> rfl

mutual

theorem traverseNode_eq_claim : ∀ (n : Node) (segs : List Seg),
    traverseNode n segs = (collectContainers n segs).filterMap claimWarningOf
  | .text _ _ _, _ => by simp [traverseNode, collectContainers]
  | .button _ _ _ _, _ => by simp [traverseNode, collectContainers]
  | .container l g p bg br bd ch, segs => by
      have hrest := traverseChildren_eq_claim ch segs 0
      simp only [traverseNode, collectContainers, List.filterMap_cons]
      have hin := isInputLikeContainer_eq_claim (.container l g p bg br bd ch)
      have hcard := isCardLikeContainer_eq_claim (.container l g p bg br bd ch)
      have hsty := hasVisualStyling_eq_claim (.container l g p bg br bd ch)
      simp only [claimWarningOf, claimFlagged, ← hin, ← hcard, ← hsty]
      by_cases hv : hasVisualStyling (.container l g p bg br bd ch) <;>
        by_cases h1 : isInputLikeContainer (.container l g p bg br bd ch) <;>
        by_cases h2 : isCardLikeContainer (.container l g p bg br bd ch) <;>
        simp [hv, h1, h2, hrest]

theorem traverseChildren_eq_claim : ∀ (cs : List Node) (segs : List Seg) (i : Nat),
    traverseChildren cs segs i = (collectChildContainers cs segs i).filterMap claimWarningOf
  | [], _, _ => by simp [traverseChildren, collectChildContainers]
  | c :: cs, segs, i => by
      have h1 := traverseNode_eq_claim c (segs ++ [Seg.str "children", Seg.num i])
      have h2 := traverseChildren_eq_claim cs segs (i + 1)
      simp [traverseChildren, collectChildContainers, List.filterMap_append, h1, h2]

end

theorem traverseTopNodes_eq_claim : ∀ (ns : List Node) (i : Nat),
    traverseTopNodes ns i = (collectTopContainers ns i).filterMap claimWarningOf
  | [], _ => by simp [traverseTopNodes, collectTopContainers]
  | n :: ns, i => by
      have h1 := traverseNode_eq_claim n [Seg.str "nodes", Seg.num i]
      have h2 := traverseTopNodes_eq_claim ns (i + 1)
      simp [traverseTopNodes, collectTopContainers, List.filterMap_append, h1, h2]

/-- C1: validateVisualUsage warns on exactly the containers that carry
visual styling and are neither input-like nor card-like, listed in
traversal order with their path, offending properties and the fixed
reason; and the scenario container with only borderRadius 12, padding 0
and two plain text children is flagged with properties containing
borderRadius=12. -/
theorem validateVisualUsage_characterization :
    (∀ spec : DesignSpec, validateVisualUsage spec = claimWarnings spec) ∧
      validateVisualUsage c1Example = [c1Warning] ∧
      "borderRadius=12" ∈ c1Warning.properties := by
  refine ⟨fun spec => traverseTopNodes_eq_claim spec.nodes 0, by rfl, by simp [c1Warning]⟩

/-- C10: a container with borderRadius zero and no background or border
does not count as visually styled, fails the card-like test, and gets no
warning, while the traversal still visits its children. -/
theorem zero_borderRadius_not_styled :
    ∀ (l : Layout) (g p : Nat) (ch : List Node) (segs : List Seg),
      hasVisualStyling (.container l g p none (some 0) none ch) = false ∧
        isCardLikeContainer (.container l g p none (some 0) none ch) = false ∧
        traverseNode (.container l g p none (some 0) none ch) segs =
          traverseChildren ch segs 0 := by
  intro l g p ch segs
  refine ⟨rfl, rfl, ?_⟩
  simp [traverseNode, hasVisualStyling, truthyStr, truthyNat]

mutual

theorem nodePreorder_applyNodeDefaults : ∀ n : Node,
    nodePreorder (applyNodeDefaults n) = (nodePreorder n).map applyNodeDefaults
  | .text _ _ _ => by simp [nodePreorder, applyNodeDefaults]
  | .button _ _ _ _ => by simp [nodePreorder, applyNodeDefaults]
  | .container l g p bg br bd ch => by
      have h := nodeListPreorder_applyNodeDefaults ch
      simp [nodePreorder, applyNodeDefaults, h]

theorem nodeListPreorder_applyNodeDefaults : ∀ cs : List Node,
    nodeListPreorder (applyNodeDefaultsList cs) = (nodeListPreorder cs).map applyNodeDefaults
  | [] => by simp [nodeListPreorder, applyNodeDefaultsList]
  | c :: cs => by
      have h1 := nodePreorder_applyNodeDefaults c
      have h2 := nodeListPreorder_applyNodeDefaults cs
      simp [nodeListPreorder, applyNodeDefaultsList, h1, h2]

end

theorem optPreserved_applyNodeDefaults (n : Node) : optPreserved n (applyNodeDefaults n) := by
  cases n with
  | text content fs col => cases col <;> simp [applyNodeDefaults, optPreserved]
  | button label bg tc br =>
      cases bg <;> cases tc <;> cases br <;> simp [applyNodeDefaults, optPreserved]
  | container l g p bg br bd ch =>
      cases bg <;> cases br <;> cases bd <;> simp [applyNodeDefaults, optPreserved]

/-- C6: the visual-default pass never overwrites an already-set optional
attribute: set frame height, background and borderRadius are unchanged,
the rewritten node list is the image of applyNodeDefaults over the
preorder listing, and applyNodeDefaults keeps every already-set optional
attribute of every node. -/
theorem applyVisualDefaults_preserves_set :
    ∀ (spec : DesignSpec) (tl : TargetLayout),
      ((spec.frame.height.isSome →
          (applyVisualDefaults spec tl).frame.height = spec.frame.height) ∧
        (spec.frame.background.isSome →
          (applyVisualDefaults spec tl).frame.background = spec.frame.background) ∧
        (spec.frame.borderRadius.isSome →
          (applyVisualDefaults spec tl).frame.borderRadius = spec.frame.borderRadius)) ∧
      specAllNodes (applyVisualDefaults spec tl) = (specAllNodes spec).map applyNodeDefaults ∧
      ∀ n : Node, optPreserved n (applyNodeDefaults n) := by
  intro spec tl
  refine ⟨⟨?_, ?_, ?_⟩, ?_, optPreserved_applyNodeDefaults⟩
  · cases h : spec.frame.height <;> simp [applyVisualDefaults, h]
  · cases h : spec.frame.background <;> simp [applyVisualDefaults, h]
  · cases h : spec.frame.borderRadius <;> simp [applyVisualDefaults, h]
  · simpa [specAllNodes, applyVisualDefaults] using
      nodeListPreorder_applyNodeDefaults spec.nodes

theorem placeholder_nonblank (idx : Nat) :
    isBlankContent (placeholderTexts.getD (idx % placeholderTexts.length) "") = false := by
  have h5 : placeholderTexts.length = 5 := rfl
  rw [h5]
  have h : idx % 5 < 5 := Nat.mod_lt idx (by omega)
  generalize hk : idx % 5 = k at h
  interval_cases k <;> decide

mutual

theorem fixNode_nonBlank : ∀ (n : Node) (idx : Nat),
    nodeTextsNonBlank (fixNode n idx).1 = true
  | .text content fs col, idx => by
      by_cases h : isBlankContent content
      · have hp := placeholder_nonblank idx
        simp only [List.getD, List.get?_eq_getElem?] at hp
        simp [fixNode, h, nodeTextsNonBlank, hp]
      · simp [fixNode, h, nodeTextsNonBlank]
  | .button _ _ _ _, idx => by simp [fixNode, nodeTextsNonBlank]
  | .container l g p bg br bd ch, idx => by
      have h := fixNodeList_nonBlank ch idx
      simp [fixNode, nodeTextsNonBlank, h]

theorem fixNodeList_nonBlank : ∀ (cs : List Node) (idx : Nat),
    nodeListTextsNonBlank (fixNodeList cs idx).1 = true
  | [], idx => by simp [fixNodeList, nodeListTextsNonBlank]
  | c :: cs, idx => by
      have h1 := fixNode_nonBlank c idx
      have h2 := fixNodeList_nonBlank cs (fixNode c idx).2
      simp [fixNodeList, nodeListTextsNonBlank, h1, h2]

end

mutual

theorem fixNode_id_of_nonBlank : ∀ (n : Node) (idx : Nat),
    nodeTextsNonBlank n = true → fixNode n idx = (n, idx)
  | .text content fs col, idx => by
      intro h
      simp [nodeTextsNonBlank] at h
      simp [fixNode, h]
  | .button _ _ _ _, idx => by
      intro _
      simp [fixNode]
  | .container l g p bg br bd ch, idx => by
      intro h
      simp [nodeTextsNonBlank] at h
      have := fixNodeList_id_of_nonBlank ch idx h
      simp [fixNode, this]

theorem fixNodeList_id_of_nonBlank : ∀ (cs : List Node) (idx : Nat),
    nodeListTextsNonBlank cs = true → fixNodeList cs idx = (cs, idx)
  | [], idx => by
      intro _
      simp [fixNodeList]
  | c :: cs, idx => by
      intro h
      simp [nodeListTextsNonBlank, Bool.and_eq_true] at h
      have h1 := fixNode_id_of_nonBlank c idx h.1
      have h2 := fixNodeList_id_of_nonBlank cs idx h.2
      simp [fixNodeList, h1, h2]

end

/-- C7: the empty-text repair pass is idempotent, and after one pass every
text content in the tree is non-blank. -/
theorem ensureNonEmptyTextContent_idempotent :
    ∀ spec : DesignSpec,
      ensureNonEmptyTextContent (ensureNonEmptyTextContent spec) =
          ensureNonEmptyTextContent spec ∧
        nodeListTextsNonBlank (ensureNonEmptyTextContent spec).nodes = true := by
  intro spec
  have h1 : nodeListTextsNonBlank (fixNodeList spec.nodes 0).1 = true :=
    fixNodeList_nonBlank spec.nodes 0
  have h2 := fixNodeList_id_of_nonBlank (fixNodeList spec.nodes 0).1 0 h1
  exact ⟨by simp [ensureNonEmptyTextContent, h2], by simpa [ensureNonEmptyTextContent] using h1⟩

/-- C2: a backend failing the first two attempts with a retryable 503 and
succeeding on the third makes the retry client return outcome success with
retryCount 2, after sleeping the exponential backoff delays of attempts
zero and one, whenever the configured maximum retry count is at least 2. -/
theorem retry_success_after_two_503 :
    ∀ (maxRetries baseRetryMs : Nat) (backend : Nat → AttemptResult) (e0 e1 : ErrObj)
      (c : Completion),
      2 ≤ maxRetries →
      backend 0 = .failure e0 → backend 1 = .failure e1 → backend 2 = .success c →
      e0.status = some 503 → e1.status = some 503 →
      isTimeoutError e0 = false → isTimeoutError e1 = false →
      makeOpenAIRequestWithRetry maxRetries baseRetryMs backend =
        ({ completion := some c, retryCount := 2, outcome := .success,
           openaiRequestId := extractRequestId c },
          [baseRetryMs * 2 ^ 0, baseRetryMs * 2 ^ 1]) := by
  intro maxRetries baseRetryMs backend e0 e1 c hmax h0 h1 h2 hs0 hs1 ht0 ht1
  obtain ⟨k, rfl⟩ : ∃ k, maxRetries = k + 2 := ⟨maxRetries - 2, by omega⟩
  have hr0 : isRetryableError e0 = true := by
    simp [isRetryableError, hs0, retryableStatuses]
  have hr1 : isRetryableError e1 = true := by
    simp [isRetryableError, hs1, retryableStatuses]
  have hb0 : (0 == k + 2) = false := by simp
  have hb1 : (1 == k + 2) = false := by simp
  simp [makeOpenAIRequestWithRetry, retryGo, h0, h1, h2, ht0, ht1, hr0, hr1, hb0, hb1]

/-- C3: a raced timeout returns at once with outcome timeout and the retry
count accumulated so far: a backend timing out on the first attempt gives
retryCount 0 with no sleeps, and at any loop state a timeout-classified
rejection ends the loop immediately with the current retry count. -/
theorem retry_timeout_not_retried :
    ∀ (maxRetries baseRetryMs : Nat) (backend : Nat → AttemptResult),
      (backend 0 = .failure requestTimeoutError →
        makeOpenAIRequestWithRetry maxRetries baseRetryMs backend =
          ({ completion := none, retryCount := 0, outcome := .timeout,
             openaiRequestId := none }, [])) ∧
      ∀ (fuel attempt retryCount : Nat) (sleeps : List Nat) (lastError : Option ErrObj)
        (e : ErrObj),
        backend attempt = .failure e → isTimeoutError e = true →
        retryGo maxRetries baseRetryMs backend (fuel + 1) attempt retryCount sleeps lastError =
          ({ completion := none, retryCount := retryCount, outcome := .timeout,
             openaiRequestId := none }, sleeps) := by
  intro maxRetries baseRetryMs backend
  constructor
  · intro h0
    have ht : isTimeoutError requestTimeoutError = true := by decide
    simp [makeOpenAIRequestWithRetry, retryGo, h0, ht]
  · intro fuel attempt retryCount sleeps lastError e hb ht
    simp [retryGo, hb, ht]

/-- The concrete plain 503 rejection of the retry scenarios. -/
def err503 : ErrObj :=
  { isErrorInstance := true, message := "Service Unavailable", status := some 503 }

/-- The concrete connection-reset rejection of the retry scenarios. -/
def errConnReset : ErrObj :=
  { isErrorInstance := true, message := "read ECONNRESET", status := none }

/-- A backend failing with a 503 on attempt zero and a connection reset on
every later attempt. -/
def c4Backend : Nat → AttemptResult := fun attempt =>
  if attempt == 0 then .failure err503 else .failure errConnReset

/-- C4 counterexample: with maximum retry count 1, a retryable 503 followed
by a connection reset on the final attempt reports outcome error, not
timeout, with retryCount 1. -/
theorem retry_connreset_reports_error :
    (makeOpenAIRequestWithRetry 1 100 c4Backend).1.outcome = RequestOutcome.error ∧
      (makeOpenAIRequestWithRetry 1 100 c4Backend).1.outcome ≠ RequestOutcome.timeout ∧
      (makeOpenAIRequestWithRetry 1 100 c4Backend).1.retryCount = 1 := by
  refine ⟨by decide, by decide, by decide⟩

/-- C4 amended: when the loop ends on the final attempt, the outcome is
classified from the last observed error as timeout only when that error is
an Error whose message contains the word timeout; a connection-reset final
error therefore reports outcome error, after one 503 retry with its
backoff sleep. -/
theorem retry_connreset_amended :
    ∀ (baseRetryMs : Nat) (backend : Nat → AttemptResult) (e0 ec : ErrObj),
      backend 0 = .failure e0 → backend 1 = .failure ec →
      e0.status = some 503 → isTimeoutError e0 = false →
      ec.status = none → ec.isErrorInstance = true →
      strIncludes (strLower ec.message) "econnreset" = true →
      strIncludes ec.message "timeout" = false →
      makeOpenAIRequestWithRetry 1 baseRetryMs backend =
          (exhaustedResult (some ec) 1, [baseRetryMs * 2 ^ 0]) ∧
        (exhaustedResult (some ec) 1).outcome = RequestOutcome.error ∧
        (exhaustedResult (some ec) 1).retryCount = 1 := by
  intro baseRetryMs backend e0 ec h0 h1 hs0 ht0 hsc hic hrc htc
  have hr0 : isRetryableError e0 = true := by
    simp [isRetryableError, hs0, retryableStatuses]
  have hne : (ec.message == "Request timeout") = false := by
    cases hmc : ec.message == "Request timeout"
    · rfl
    · exfalso
      have heq : ec.message = "Request timeout" := by
        exact eq_of_beq hmc
      rw [heq] at htc
      exact absurd htc (by decide)
  have htec : isTimeoutError ec = false := by
    simp [isTimeoutError, htc, hne]
  refine ⟨?_, ?_, rfl⟩
  · simp [makeOpenAIRequestWithRetry, retryGo, h0, h1, ht0, hr0, htec]
  · simp [exhaustedResult, hic, htc]

/-- C5: with the dry-run flag set and no generation context, the generator
returns the fixed mock spec run through the repair pipeline of the
non-dry-run path, and the result has page Mock Page, the mobile default
frame height 800, and the three mock nodes, each with its visual defaults
filled in, the button carrying background hex 2563EB. -/
theorem generateDesignSpec_dryRun_mock :
    generateDesignSpecDryRun "Create a login form" none =
        repairPipeline mockSpec .mobile ∧
      (generateDesignSpecDryRun "Create a login form" none).page = "Mock Page" ∧
      (generateDesignSpecDryRun "Create a login form" none).frame.height = some 800 ∧
      (generateDesignSpecDryRun "Create a login form" none).nodes =
        [ .text "Mock content" (some 16) (some "#111111"),
          .container .vertical 12 16 (some "#FFFFFF") (some 12) none
            [.text "Nested text" (some 14) (some "#111111")],
          .button "Mock Button" (some "#2563EB") (some "#FFFFFF") (some 8) ] := by
  refine ⟨rfl, rfl, rfl, rfl⟩

theorem bindNoneRight (x : Option α) (f : α → Option β) (hf : ∀ a, f a = none) :
    (x >>= f) = none := by
  cases x <;> simp [hf]

theorem parse_rejects_aux : ∀ N : Nat,
    (∀ j : Json, sizeOf j ≤ N → nodeHasEmptyContainer j = true → parseNode j = none) ∧
      (∀ l : List Json, sizeOf l ≤ N → nodeListHasEmptyContainer l = true →
        parseNodeList l = none) := by
  intro N
  induction N with
  | zero =>
      constructor
      · intro j hsz
        exfalso
        cases j <;> simp at hsz
      · intro l hsz
        exfalso
        cases l <;> simp at hsz
  | succ n ih =>
      obtain ⟨ihj, ihl⟩ := ih
      constructor
      · intro j hsz hb
        cases j with
        | jnull => simp [nodeHasEmptyContainer] at hb
        | jbool b => simp [nodeHasEmptyContainer] at hb
        | jnum m => simp [nodeHasEmptyContainer] at hb
        | jstr s => simp [nodeHasEmptyContainer] at hb
        | jarr xs => simp [nodeHasEmptyContainer] at hb
        | jobj fields =>
            unfold nodeHasEmptyContainer at hb
            split at hb
            next =>
              split at hb
              next elems hch =>
                have hsize : sizeOf elems ≤ n := by
                  have h1 := findField_sizeOf hch
                  simp at h1 hsz
                  omega
                unfold parseNode
                split
                next hty2 => simp_all
                next hty2 => simp_all
                next hty2 =>
                  split
                  next elems2 hch2 =>
                    rw [hch] at hch2
                    simp only [Option.some.injEq, Json.jarr.injEq] at hch2
                    subst hch2
                    apply bindNoneRight
                    intro layout
                    apply bindNoneRight
                    intro gap
                    apply bindNoneRight
                    intro padding
                    simp only [Bool.or_eq_true] at hb
                    rcases hb with hemp | hrec
                    · have he : elems = [] := by
                        simpa using hemp
                      subst he
                      have h0 : parseNodeList ([] : List Json) = some [] := by
                        simp [parseNodeList]
                      rw [h0]
                      refine (Option.some_bind _ _).trans ?_
                      apply bindNoneRight
                      intro background
                      apply bindNoneRight
                      intro borderRadius
                      apply bindNoneRight
                      intro border
                      simp
                    · have hpl : parseNodeList elems = none := ihl elems hsize hrec
                      rw [hpl]
                      rfl
                  next => rfl
                next hne hty2 => rfl
              next => simp at hb
            next => simp at hb
      · intro l hsz hb
        cases l with
        | nil => simp [nodeListHasEmptyContainer] at hb
        | cons x xs =>
            have hbounds : sizeOf x ≤ n ∧ sizeOf xs ≤ n := by
              simp at hsz
              omega
            unfold nodeListHasEmptyContainer at hb
            simp only [Bool.or_eq_true] at hb
            unfold parseNodeList
            rcases hb with hx | hxs
            · have hpx := ihj x hbounds.1 hx
              rw [hpx]
              rfl
            · have hpxs := ihl xs hbounds.2 hxs
              apply bindNoneRight
              intro m
              rw [hpxs]
              rfl

/-- C8: a parsed JSON value holding, at any nesting depth of its node
structure, a container-tagged object with an empty children array fails
schema validation: the minimum-one-child rule is enforced recursively. -/
theorem parseDesignSpec_rejects_empty_children :
    ∀ j : Json, specHasEmptyContainer j = true → parseDesignSpec j = none := by
  intro j hb
  cases j with
  | jnull => simp [specHasEmptyContainer] at hb
  | jbool b => simp [specHasEmptyContainer] at hb
  | jnum m => simp [specHasEmptyContainer] at hb
  | jstr s => simp [specHasEmptyContainer] at hb
  | jarr xs => simp [specHasEmptyContainer] at hb
  | jobj fields =>
      simp only [specHasEmptyContainer] at hb
      split at hb
      next elems hne =>
        have hpl : parseNodeList elems = none :=
          (parse_rejects_aux (sizeOf elems)).2 elems le_rfl hb
        simp only [parseDesignSpec]
        apply bindNoneRight
        intro page
        apply bindNoneRight
        intro frame
        split
        next elems2 h2 =>
          rw [hne] at h2
          simp only [Option.some.injEq, Json.jarr.injEq] at h2
          subst h2
          rw [hpl]
          rfl
        next => rfl
      next => simp at hb

/-- C9: a pattern is matched exactly when it declares a non-empty
detection-keyword list one of whose keywords occurs, case-insensitively,
as a substring of the prompt; a pattern without keywords never matches;
and the loader includes the auth-form pattern exactly when its file loaded
and its keywords match the prompt. -/
theorem matchesPattern_characterization :
    (∀ (prompt : String) (p : PatternRule),
        matchesPattern prompt p = true ↔
          ∃ kws, p.detectionKeywords = some kws ∧ kws ≠ [] ∧
            ∃ kw ∈ kws, strIncludes (strLower prompt) (strLower kw) = true) ∧
      (∀ (prompt : String) (p : PatternRule),
        p.detectionKeywords = none ∨ p.detectionKeywords = some [] →
          matchesPattern prompt p = false) ∧
      ∀ (files : RuleFiles) (prompt : String) (tl : TargetLayout) (ui : UIStrictness)
        (vb : Bool) (p : PatternRule),
        p ∈ (loadRules files prompt tl ui vb).patterns ↔
          files.authForm = some p ∧ matchesPattern prompt p = true := by
  refine ⟨?_, ?_, ?_⟩
  · intro prompt p
    cases hd : p.detectionKeywords with
    | none => simp [matchesPattern, hd]
    | some kws =>
        cases kws with
        | nil => simp [matchesPattern, hd]
        | cons k ks => simp [matchesPattern, hd, List.any_eq_true]
  · intro prompt p h
    rcases h with h | h <;> simp [matchesPattern, h]
  · intro files prompt tl ui vb p
    cases hf : files.authForm with
    | none => simp [loadRules, hf]
    | some q =>
        cases hm : matchesPattern prompt q with
        | false =>
            simp only [loadRules, hf, hm, Bool.false_eq_true, if_false]
            constructor
            · intro h
              simp at h
            · rintro ⟨h1, h2⟩
              simp only [Option.some.injEq] at h1
              subst h1
              rw [h2] at hm
              exact Bool.noConfusion hm
        | true =>
            simp only [loadRules, hf, hm, if_true]
            constructor
            · intro h
              simp only [List.mem_singleton] at h
              subst h
              exact ⟨rfl, hm⟩
            · rintro ⟨h1, _⟩
              simp only [Option.some.injEq] at h1
              subst h1
              simp

/-- The backend of the C2 witness: 503 rejections on attempts zero and
one, a completion on every later attempt. -/
def c2Backend : Nat → AttemptResult := fun attempt =>
  if attempt ≤ 1 then .failure err503
  else .success { headerRequestId := none, id := some "req-123" }

theorem retry_success_after_two_503_witness :
    makeOpenAIRequestWithRetry 2 100 c2Backend =
      ({ completion := some { headerRequestId := none, id := some "req-123" }, retryCount := 2,
         outcome := .success, openaiRequestId := some "req-123" },
        [100 * 2 ^ 0, 100 * 2 ^ 1]) :=
  retry_success_after_two_503 2 100 c2Backend err503 err503
    { headerRequestId := none, id := some "req-123" }
    (by decide) rfl rfl rfl rfl rfl (by decide) (by decide)

/-- The backend of the C3 witness: every raced attempt times out. -/
def c3Backend : Nat → AttemptResult := fun _ => .failure requestTimeoutError

theorem retry_timeout_not_retried_witness :
    makeOpenAIRequestWithRetry 3 50 c3Backend =
      ({ completion := none, retryCount := 0, outcome := .timeout, openaiRequestId := none },
        []) :=
  (retry_timeout_not_retried 3 50 c3Backend).1 rfl

theorem retry_connreset_amended_witness :
    makeOpenAIRequestWithRetry 1 100 c4Backend =
        (exhaustedResult (some errConnReset) 1, [100 * 2 ^ 0]) ∧
      (exhaustedResult (some errConnReset) 1).outcome = RequestOutcome.error ∧
      (exhaustedResult (some errConnReset) 1).retryCount = 1 :=
  retry_connreset_amended 100 c4Backend err503 errConnReset
    rfl rfl rfl (by decide) rfl rfl (by decide) (by decide)

theorem applyVisualDefaults_preserves_witness :
    (applyVisualDefaults mockSpec .mobile).frame.height = mockSpec.frame.height ∧
      (applyVisualDefaults mockSpec .mobile).frame.background = mockSpec.frame.background ∧
      (applyVisualDefaults mockSpec .mobile).frame.borderRadius =
        mockSpec.frame.borderRadius :=
  ⟨(applyVisualDefaults_preserves_set mockSpec .mobile).1.1 rfl,
    (applyVisualDefaults_preserves_set mockSpec .mobile).1.2.1 rfl,
    (applyVisualDefaults_preserves_set mockSpec .mobile).1.2.2 rfl⟩

/-- A spec JSON whose nodes hold a container nested inside a container,
the inner one with an empty children array. -/
def c8BadJson : Json :=
  .jobj
    [ ("page", .jstr "P"),
      ("nodes", .jarr
        [ .jobj
            [ ("type", .jstr "container"), ("layout", .jstr "vertical"),
              ("gap", .jnum 0), ("padding", .jnum 0),
              ("children", .jarr
                [ .jobj
                    [ ("type", .jstr "container"), ("layout", .jstr "vertical"),
                      ("gap", .jnum 0), ("padding", .jnum 0),
                      ("children", .jarr []) ] ]) ] ]) ]

theorem parseDesignSpec_rejects_witness :
    specHasEmptyContainer c8BadJson = true ∧ parseDesignSpec c8BadJson = none := by
  have h : specHasEmptyContainer c8BadJson = true := by
    simp [c8BadJson, specHasEmptyContainer, nodeListHasEmptyContainer, nodeHasEmptyContainer,
      findField]
  exact ⟨h, parseDesignSpec_rejects_empty_children c8BadJson h⟩

/-- A pattern rule without a detection keyword list. -/
def noKeywordPattern : PatternRule :=
  { name := "bare", description := "No keywords", rules := [], detectionKeywords := none }

/-- The auth-form pattern rule of the C9 witness. -/
def authFormPattern : PatternRule :=
  { name := "auth-form", description := "Auth form pattern",
    rules := ["Use a form container"],
    detectionKeywords := some ["login", "sign in", "auth"] }

/-- The rule documents of the C9 witness. -/
def sampleRuleFiles : RuleFiles :=
  { base := { name := "base", description := "Base rules", rules := ["Rule A"] }
    layout := { name := "layout", description := "Layout rules", rules := ["Rule L"],
                strictRules := none, balancedRules := none }
    devices :=
      { name := "devices", description := "Devices"
        mobile := { width := "400", height := "800", rules := ["m"] }
        tablet := { width := "768", height := "900", rules := ["t"] }
        desktop := { width := "1200", height := "900", rules := ["d"] } }
    visualBaselineFile := { name := "visual-baseline", description := "VB", rules := ["v"] }
    authForm := some authFormPattern }

theorem matchesPattern_witness :
    matchesPattern "hello" noKeywordPattern = false ∧
      authFormPattern ∈
        (loadRules sampleRuleFiles "Create a Login form" .mobile .strict true).patterns := by
  constructor
  · exact matchesPattern_characterization.2.1 "hello" noKeywordPattern (Or.inl rfl)
  · exact (matchesPattern_characterization.2.2 sampleRuleFiles "Create a Login form"
      .mobile .strict true authFormPattern).mpr ⟨rfl, by decide⟩

end Eskiz
